import Mathlib

/-!
Verification development for the SIFT webcam demo application
(`SIFT_app.py`).  The application class `My_App` wires a webcam, a
template-image browser and a repeating timer to a per-frame feature
matching pipeline.  We give a shallow embedding of its handlers:

* `ratioFilter` — the Lowe ratio-test loop (lines 99–102);
* `SLOT_query_camera` — the per-frame tick (lines 77–129), with the
  external vision primitives (camera read, template decode, knn
  matching, homography estimation) supplied as an environment record;
* `convert_cv_to_pixmap` — the BGR→RGB display conversion (lines 59–65);
* `SLOT_browse_button` — the template browse handler (lines 137–148);
* `SLOT_toggle_camera` — the camera toggle (lines 153–161);
* an application-shell state machine over these handlers, with a
  reachability predicate from the constructor's initial state
  (lines 36–53).
-/

/-- A k-NN match pair element, as OpenCV's `DMatch`: indices of the
matched template ("query") and frame ("train") keypoints, plus the
descriptor distance.  Distances are modelled as rationals. -/
structure DMatch where
  queryIdx : Nat
  trainIdx : Nat
  distance : ℚ
deriving DecidableEq, Repr

/-- Lines 99–102: `poi = []` followed by a `for m, n in matchList:` loop
appending `m` whenever `m.distance < 0.65 * n.distance`.  The loop with
its accumulator is a left fold over the match pairs. -/
def ratioFilter (matchList : List (DMatch × DMatch)) : List DMatch :=
  matchList.foldl
    (fun poi p => if p.1.distance < 65 / 100 * p.2.distance then poi ++ [p.1] else poi)
    []

/-- The filtering rule as the specification words it: keep exactly the
best elements of the pairs with `best.distance < 0.65 * secondBest.distance`,
in input order. -/
def ratioFilterSpec (matchList : List (DMatch × DMatch)) : List DMatch :=
  (matchList.filter (fun p => p.1.distance < 65 / 100 * p.2.distance)).map Prod.fst

theorem ratioFilter_foldl_acc (matchList : List (DMatch × DMatch)) (acc : List DMatch) :
    matchList.foldl
      (fun poi p => if p.1.distance < 65 / 100 * p.2.distance then poi ++ [p.1] else poi)
      acc = acc ++ ratioFilterSpec matchList := by
  induction matchList generalizing acc with
  | nil => simp [ratioFilterSpec]
  | cons hd tl ih =>
    by_cases h : hd.1.distance < 65 / 100 * hd.2.distance
    · simp [ratioFilterSpec, List.foldl_cons, h, ih]
    · simp [ratioFilterSpec, List.foldl_cons, h, ih]

/-- C2 — For every list of k-nearest-neighbour match pairs
`(best, secondBest)`, the ratio filter keeps a correspondence iff
`best.distance < 0.65 * secondBest.distance`, and the output is exactly
the list of best elements of the qualifying pairs, in input order. -/
theorem ratio_filter_keeps_iff_lowe (matchList : List (DMatch × DMatch)) :
    ratioFilter matchList
      = (matchList.filter (fun p => p.1.distance < 65 / 100 * p.2.distance)).map Prod.fst := by
  rw [ratioFilter, ratioFilter_foldl_acc]
  simp [ratioFilterSpec]

/-- Python exception classes that the tick and browse handlers can
raise: `cv2.error` (an OpenCV call on an invalid/`None` image) and
`AttributeError` (a missing attribute, or calling `.ravel()` on the
`None` the estimator returns for a degenerate configuration). -/
inductive PyErr where
  | cv2Err
  | attrErr
deriving DecidableEq, Repr

/-- Which rendering branch of `SLOT_query_camera` produced the pixmap
pushed into `live_image_label`: the homography overlay (lines 108–124)
or the match visualisation (lines 126–129). -/
inductive RenderPath where
  | homographyOverlay
  | matchVis
deriving DecidableEq, Repr

/-- Outcome of one invocation of the timer callback: either a pixmap was
rendered into the live-image label, or a Python exception was raised and
escaped the callback before any `setPixmap` call. -/
inductive TickResult where
  | rendered (r : RenderPath)
  | raised (e : PyErr)
deriving DecidableEq, Repr

/-- Environment of external vision primitives for a single tick.

* `readOk` — whether `self._camera_device.read()` yields a valid frame;
  `false` models the failure indicator `(False, None)`.
* `templDecodeOk` — whether `cv2.imread(self.template_path, ...)`
  decodes the file at the stored path (`false` models a `None` result).
* `knnMatchList` — the pairs returned by `flann.knnMatch(..., k=2)` on
  the two descriptor sets computed this tick.
* `findHomographyOk` — whether `cv2.findHomography(..., cv2.RANSAC, 5.0)`
  finds a transform; `false` models the `None` matrix/mask returned on a
  degenerate configuration. -/
structure CamEnv where
  readOk : Bool
  templDecodeOk : Bool
  knnMatchList : List (DMatch × DMatch)
  findHomographyOk : Bool
deriving DecidableEq, Repr

/-- Trace of one tick: whether feature detection/matching on the
template image was reached (lines 85–95), whether homography estimation
was attempted (line 111), and the tick's outcome. -/
structure TickTrace where
  ranFeatureMatching : Bool
  attemptedHomography : Bool
  result : TickResult
deriving DecidableEq, Repr

/-- Lines 77–129, `SLOT_query_camera`, with the stored
`self.template_path` passed explicitly (`none` models the attribute
never having been assigned).  Control flow in source order:

* line 80 ignores the read's success flag, so a failed read hands the
  `None` frame to `cv2.cvtColor` at line 81, which raises `cv2.error`;
* line 82 reads `self.template_path`; if no browse ever stored it, the
  attribute access raises `AttributeError`;
* line 86 runs `sift.detectAndCompute` on the decoded template; if the
  decode returned `None` this raises `cv2.error` before any matching;
* lines 86–102 otherwise detect, match and ratio-filter into `poi`;
* line 106 branches on `len(poi) > 4`: above the threshold line 111
  calls `cv2.findHomography`, and a `None` result makes line 112's
  `mask.ravel()` raise `AttributeError`; otherwise lines 115–124 render
  the homography overlay;
* at or below the threshold lines 127–129 render the match
  visualisation. -/
def SLOT_query_camera (env : CamEnv) (template_path : Option String) : TickTrace :=
  if env.readOk = false then
    { ranFeatureMatching := false, attemptedHomography := false,
      result := .raised .cv2Err }
  else
    match template_path with
    | none =>
        { ranFeatureMatching := false, attemptedHomography := false,
          result := .raised .attrErr }
    | some _ =>
        if env.templDecodeOk = false then
          { ranFeatureMatching := false, attemptedHomography := false,
            result := .raised .cv2Err }
        else
          let poi := ratioFilter env.knnMatchList
          if 4 < poi.length then
            if env.findHomographyOk then
              { ranFeatureMatching := true, attemptedHomography := true,
                result := .rendered .homographyOverlay }
            else
              { ranFeatureMatching := true, attemptedHomography := true,
                result := .raised .attrErr }
          else
            { ranFeatureMatching := true, attemptedHomography := false,
              result := .rendered .matchVis }

/-- C1 — In a per-frame tick that reaches the correspondence filter
(valid camera read, stored template path, decodable template),
homography estimation is attempted iff strictly more than 4
correspondences survive the ratio filter; with 4 or fewer the tick takes
the match-visualisation rendering path and never attempts homography
estimation. -/
theorem homography_attempted_iff_gt_four (env : CamEnv) (p : String)
    (hr : env.readOk = true) (hd : env.templDecodeOk = true) :
    ((SLOT_query_camera env (some p)).attemptedHomography = true
        ↔ 4 < (ratioFilter env.knnMatchList).length)
      ∧ ((ratioFilter env.knnMatchList).length ≤ 4 →
          (SLOT_query_camera env (some p)).result = .rendered .matchVis
            ∧ (SLOT_query_camera env (some p)).attemptedHomography = false) := by
  unfold SLOT_query_camera
  simp only [hr, hd]
  by_cases h4 : 4 < (ratioFilter env.knnMatchList).length
  · by_cases hH : env.findHomographyOk <;> simp [h4, hH]
  · simp [h4]

/-- Concrete tick for the C1 witness: everything succeeds and the
matcher returns no pairs, so the filter yields the empty list. -/
def emptyMatchEnv : CamEnv :=
  { readOk := true, templDecodeOk := true, knnMatchList := [],
    findHomographyOk := true }

/-- A concrete template path used by concrete states and environments. -/
def pathA : String := "box.png"

theorem homography_attempted_iff_gt_four_witness :
    emptyMatchEnv.readOk = true ∧ emptyMatchEnv.templDecodeOk = true ∧
      ((SLOT_query_camera emptyMatchEnv (some pathA)).attemptedHomography = true
          ↔ 4 < (ratioFilter emptyMatchEnv.knnMatchList).length) :=
  ⟨rfl, rfl, (homography_attempted_iff_gt_four emptyMatchEnv pathA rfl rfl).1⟩

/-- Button caption set by the toggle handler when the camera is off
(line 157). -/
def enableText : String := "&Enable camera"

/-- Button caption set by the toggle handler when the camera is on
(line 161). -/
def disableText : String := "&Disable camera"

/-- The application-shell state: the fields of `My_App` that the three
handlers read or write.  `template_path` is `none` while the attribute
has never been assigned; `live_pixmap` records which rendering branch
last pushed a pixmap into `live_image_label` (`none` for the layout's
initial pixmap). -/
structure AppState where
  is_cam_enabled : Bool
  is_template_loaded : Bool
  template_path : Option String
  toggle_cam_text : String
  timerRunning : Bool
  live_pixmap : Option RenderPath
deriving DecidableEq, Repr

/-- Modelled from the spec: the initial toggle-button caption is defined
by the UI layout file `SIFT_app.ui`, which is loaded at line 33 and is
not among the sources.  Per the spec the button label reflects the next
available action, which for the initially disabled camera is enabling
it. -/
def initToggleText : String := enableText

/-- The state after `My_App.__init__` (lines 36–53): camera disabled,
template not loaded, no template path assigned, timer created but not
started. -/
def initState : AppState :=
  { is_cam_enabled := false, is_template_loaded := false,
    template_path := none, toggle_cam_text := initToggleText,
    timerRunning := false, live_pixmap := none }

/-- Lines 153–161, `SLOT_toggle_camera`: if the camera is enabled, stop
the timer, clear the flag and relabel the button; otherwise start the
timer, set the flag and relabel the button. -/
def SLOT_toggle_camera (s : AppState) : AppState :=
  if s.is_cam_enabled then
    { s with timerRunning := false, is_cam_enabled := false,
             toggle_cam_text := enableText }
  else
    { s with timerRunning := true, is_cam_enabled := true,
             toggle_cam_text := disableText }

/-- Outcome of one invocation of the browse handler: the lines it
printed to standard output, or the Python exception it raised. -/
inductive BrowseResult where
  | completed (printed : List String)
  | raised (e : PyErr)
deriving DecidableEq, Repr

/-- The diagnostic line printed at line 148. -/
def loadedLine (p : String) : String := "Loaded template image file: " ++ p

/-- Lines 137–148, `SLOT_browse_button`, with the dialog outcome passed
explicitly (`some p` when `dlg.exec_()` succeeds with selection `p`,
`none` when the dialog is cancelled).  Only a confirmed dialog stores
`self.template_path` (line 143), but lines 146–148 run unconditionally:
they re-display and re-print the previously stored path on cancellation,
and raise `AttributeError` if no path was ever stored.  Note the handler
never assigns `self._is_template_loaded`. -/
def SLOT_browse_button (dlg : Option String) (s : AppState) :
    AppState × BrowseResult :=
  match dlg with
  | some p => ({ s with template_path := some p }, .completed [loadedLine p])
  | none =>
      match s.template_path with
      | some q => (s, .completed [loadedLine q])
      | none => (s, .raised .attrErr)

/-- Effect of one timer tick on the shell state: a rendered tick updates
the live-image label's pixmap (lines 124, 129); a raised exception
escapes before any `setPixmap`, leaving every field unchanged. -/
def tickState (env : CamEnv) (s : AppState) : AppState :=
  match (SLOT_query_camera env s.template_path).result with
  | .rendered r => { s with live_pixmap := some r }
  | .raised _ => s

/-- The three events that can fire on the single UI thread. -/
inductive AppAction where
  | toggle
  | browse (dlg : Option String)
  | tick (env : CamEnv)

/-- State transition of one event. -/
def applyAction : AppAction → AppState → AppState
  | .toggle, s => SLOT_toggle_camera s
  | .browse dlg, s => (SLOT_browse_button dlg s).1
  | .tick env, s => tickState env s

/-- States the application can be in: the constructor's state followed
by any sequence of toggle, browse and tick events. -/
inductive Reachable : AppState → Prop where
  | init : Reachable initState
  | step (a : AppAction) (s : AppState) :
      Reachable s → Reachable (applyAction a s)

theorem reachable_invariant {s : AppState} (h : Reachable s) :
    s.toggle_cam_text = (if s.is_cam_enabled then disableText else enableText)
      ∧ s.timerRunning = s.is_cam_enabled
      ∧ s.is_template_loaded = false := by
  induction h with
  | init => simp [initState, initToggleText]
  | step a s hs ih =>
    obtain ⟨htext, htimer, hload⟩ := ih
    cases a with
    | toggle =>
        by_cases he : s.is_cam_enabled <;>
          simp [applyAction, SLOT_toggle_camera, he, hload]
    | browse dlg =>
        cases dlg with
        | some p => simp [applyAction, SLOT_browse_button, htext, htimer, hload]
        | none =>
            cases hq : s.template_path <;>
              simp [applyAction, SLOT_browse_button, hq, htext, htimer, hload]
    | tick env =>
        unfold applyAction tickState
        cases hres : (SLOT_query_camera env s.template_path).result <;>
          simp [hres, htext, htimer, hload]

/-- C6 — In every state the application can reach, applying the
toggle-camera action twice returns the state — in particular the
camera-enabled flag, whether the timer is running, and the toggle
button's label — to its original value. -/
theorem toggle_twice_identity {s : AppState} (h : Reachable s) :
    SLOT_toggle_camera (SLOT_toggle_camera s) = s := by
  obtain ⟨htext, htimer, -⟩ := reachable_invariant h
  cases s with
  | mk e l p t r lp =>
    simp only at htext htimer
    subst htimer
    by_cases he : r <;> simp_all [SLOT_toggle_camera]

theorem toggle_twice_identity_witness :
    SLOT_toggle_camera (SLOT_toggle_camera initState) = initState :=
  toggle_twice_identity Reachable.init

/-- C10 — In every reachable state the camera-enabled flag equals
whether the timer is running and the toggle button's caption is
"&Disable camera" exactly when the flag is true and "&Enable camera"
exactly when it is false; every toggle-camera call (from any state)
re-establishes the caption/flag correspondence; and neither the browse
handler nor a timer tick mutates the flag or starts/stops the timer. -/
theorem cam_flag_timer_label_invariant :
    (∀ s : AppState, Reachable s →
        s.is_cam_enabled = s.timerRunning
          ∧ s.toggle_cam_text
              = (if s.is_cam_enabled then disableText else enableText))
      ∧ (∀ s : AppState,
          (SLOT_toggle_camera s).toggle_cam_text
            = (if (SLOT_toggle_camera s).is_cam_enabled then disableText
               else enableText))
      ∧ (∀ (s : AppState) (dlg : Option String),
          (SLOT_browse_button dlg s).1.is_cam_enabled = s.is_cam_enabled
            ∧ (SLOT_browse_button dlg s).1.timerRunning = s.timerRunning)
      ∧ (∀ (s : AppState) (env : CamEnv),
          (tickState env s).is_cam_enabled = s.is_cam_enabled
            ∧ (tickState env s).timerRunning = s.timerRunning) := by
  refine ⟨fun s hs => ?_, fun s => ?_, fun s dlg => ?_, fun s env => ?_⟩
  · obtain ⟨htext, htimer, -⟩ := reachable_invariant hs
    exact ⟨htimer.symm, htext⟩
  · by_cases he : s.is_cam_enabled <;> simp [SLOT_toggle_camera, he]
  · cases dlg with
    | some p => simp [SLOT_browse_button]
    | none => cases hq : s.template_path <;> simp [SLOT_browse_button, hq]
  · unfold tickState
    cases hres : (SLOT_query_camera env s.template_path).result <;> simp [hres]

theorem cam_flag_timer_label_invariant_witness :
    (initState.is_cam_enabled = initState.timerRunning
        ∧ initState.toggle_cam_text
            = (if initState.is_cam_enabled then disableText else enableText))
      ∧ (tickState emptyMatchEnv initState).is_cam_enabled
          = initState.is_cam_enabled :=
  ⟨cam_flag_timer_label_invariant.1 initState Reachable.init,
   (cam_flag_timer_label_invariant.2.2.2 initState emptyMatchEnv).1⟩

/-- A match pair that passes the ratio test: distance 1 against a
second-best distance of 10 (1 < 0.65 * 10). -/
def goodPair : DMatch × DMatch := (⟨0, 0, 1⟩, ⟨0, 1, 10⟩)

/-- Tick environment with five correspondences surviving the ratio
filter and a homography estimator that reports failure (degenerate
configuration). -/
def degenerateEnv : CamEnv :=
  { readOk := true, templDecodeOk := true,
    knnMatchList := [goodPair, goodPair, goodPair, goodPair, goodPair],
    findHomographyOk := false }

theorem ratioFilter_five_good_length :
    (ratioFilter [goodPair, goodPair, goodPair, goodPair, goodPair]).length = 5 := by
  norm_num [ratioFilter, goodPair, List.foldl]

theorem degenerateEnv_gt_four :
    4 < (ratioFilter degenerateEnv.knnMatchList).length := by
  have h : degenerateEnv.knnMatchList
      = [goodPair, goodPair, goodPair, goodPair, goodPair] := rfl
  rw [h, ratioFilter_five_good_length]
  norm_num

/-- C3 counterexample — The claim says that when more than 4
correspondences survive and the estimator reports failure, the tick does
not crash.  In a tick with five surviving correspondences and a failing
estimator, line 112's `mask.ravel()` is called on the `None` mask and the
resulting `AttributeError` escapes the timer callback: the tick crashes. -/
theorem estimator_failure_crashes_tick :
    4 < (ratioFilter degenerateEnv.knnMatchList).length
      ∧ (SLOT_query_camera degenerateEnv (some pathA)).attemptedHomography = true
      ∧ (SLOT_query_camera degenerateEnv (some pathA)).result
          = .raised .attrErr := by
  have htr : SLOT_query_camera degenerateEnv (some pathA)
      = { ranFeatureMatching := true, attemptedHomography := true,
          result := .raised .attrErr } := by
    have h5 : 4 < (ratioFilter [goodPair, goodPair, goodPair, goodPair, goodPair]).length := by
      rw [ratioFilter_five_good_length]
      norm_num
    unfold SLOT_query_camera
    simp [degenerateEnv, h5]
  exact ⟨degenerateEnv_gt_four, by rw [htr], by rw [htr]⟩

/-- C3 amended — For every filtered correspondence set of size
strictly greater than 4, homography estimation is attempted; if the
estimator reports failure (degenerate configuration), no rendering
occurs for that tick and the shell state is left unchanged, but the tick
raises an `AttributeError` (from `mask.ravel()` on the `None` result)
that escapes the timer callback rather than being handled. -/
theorem estimator_failure_propagates (env : CamEnv) (s : AppState) (p : String)
    (hp : s.template_path = some p)
    (hr : env.readOk = true) (hd : env.templDecodeOk = true)
    (h4 : 4 < (ratioFilter env.knnMatchList).length)
    (hH : env.findHomographyOk = false) :
    (SLOT_query_camera env s.template_path).attemptedHomography = true
      ∧ (SLOT_query_camera env s.template_path).result = .raised .attrErr
      ∧ tickState env s = s := by
  have htr : SLOT_query_camera env s.template_path
      = { ranFeatureMatching := true, attemptedHomography := true,
          result := .raised .attrErr } := by
    rw [hp]
    unfold SLOT_query_camera
    simp [hr, hd, h4, hH]
  refine ⟨by rw [htr], by rw [htr], ?_⟩
  unfold tickState
  rw [htr]

theorem estimator_failure_propagates_witness :
    ((SLOT_browse_button (some pathA) initState).1.template_path = some pathA
        ∧ degenerateEnv.readOk = true ∧ degenerateEnv.templDecodeOk = true
        ∧ 4 < (ratioFilter degenerateEnv.knnMatchList).length
        ∧ degenerateEnv.findHomographyOk = false)
      ∧ tickState degenerateEnv (SLOT_browse_button (some pathA) initState).1
          = (SLOT_browse_button (some pathA) initState).1 :=
  ⟨⟨by decide, rfl, rfl, degenerateEnv_gt_four, rfl⟩,
   (estimator_failure_propagates degenerateEnv
      (SLOT_browse_button (some pathA) initState).1 pathA (by decide) rfl rfl
      degenerateEnv_gt_four rfl).2.2⟩

/-- Tick environment whose camera read fails: `read()` returns
`(False, None)`. -/
def readFailEnv : CamEnv :=
  { readOk := false, templDecodeOk := true, knnMatchList := [],
    findHomographyOk := true }

/-- C4 counterexample — The claim says that when the camera read
fails the tick is skipped with no exception escaping the timer callback.
In a tick whose read fails, line 80 ignores the returned failure flag
and line 81 calls `cv2.cvtColor` on the `None` frame, so a `cv2.error`
escapes the callback: the tick is aborted by an exception, not skipped. -/
theorem camera_read_failure_raises_counterexample :
    (SLOT_query_camera readFailEnv (some pathA)).result = .raised .cv2Err := by
  decide

/-- C4 amended — Whenever the camera read fails, the tick performs
no feature matching and no rendering — the previously displayed bitmap
and the whole shell state remain unchanged — but the failure is not
handled: the color conversion on the invalid frame raises a `cv2.error`
that escapes the timer callback. -/
theorem camera_read_failure_aborts_tick (env : CamEnv) (s : AppState)
    (hr : env.readOk = false) :
    (SLOT_query_camera env s.template_path).result = .raised .cv2Err
      ∧ (SLOT_query_camera env s.template_path).ranFeatureMatching = false
      ∧ tickState env s = s := by
  have htr : SLOT_query_camera env s.template_path
      = { ranFeatureMatching := false, attemptedHomography := false,
          result := .raised .cv2Err } := by
    unfold SLOT_query_camera
    simp [hr]
  refine ⟨by rw [htr], by rw [htr], ?_⟩
  unfold tickState
  rw [htr]

theorem camera_read_failure_aborts_tick_witness :
    readFailEnv.readOk = false ∧ tickState readFailEnv initState = initState :=
  ⟨rfl, (camera_read_failure_aborts_tick readFailEnv initState rfl).2.2⟩

/-- The state reached by confirming the browse dialog with `pathA` from
the constructor's state. -/
def afterBrowse : AppState := applyAction (.browse (some pathA)) initState

/-- C5 counterexample — The claim says the pipeline never runs
feature matching unless `_is_template_loaded` is true.  `afterBrowse` is
a reachable state (constructor followed by one confirmed browse) in
which `_is_template_loaded` is still `False` — the browse handler never
assigns it — yet a tick with a valid camera read and a decodable
template runs feature matching. -/
theorem matching_runs_with_loaded_flag_false :
    Reachable afterBrowse
      ∧ afterBrowse.is_template_loaded = false
      ∧ (SLOT_query_camera emptyMatchEnv afterBrowse.template_path).ranFeatureMatching
          = true :=
  ⟨Reachable.step (.browse (some pathA)) initState Reachable.init,
   by decide, by decide⟩

/-- C5 amended — The flag `_is_template_loaded` is initialised to
`False` and never assigned again nor consulted: it is `false` in every
reachable state.  What actually gates the pipeline is the `template_path`
attribute: a tick runs feature matching iff a confirmed browse has
stored a template path, the camera read succeeds and the template
decodes; in particular, before any confirmed browse every tick aborts
(with an `AttributeError` on the unset attribute) before feature
matching. -/
theorem matching_gated_by_path_not_flag :
    (∀ s : AppState, Reachable s → s.is_template_loaded = false)
      ∧ (∀ (tp : Option String) (env : CamEnv),
          (SLOT_query_camera env tp).ranFeatureMatching = true
            ↔ (tp ≠ none ∧ env.readOk = true ∧ env.templDecodeOk = true))
      ∧ (∀ env : CamEnv, env.readOk = true →
          (SLOT_query_camera env none).result = .raised .attrErr) := by
  refine ⟨fun s hs => (reachable_invariant hs).2.2, fun tp env => ?_, fun env hr => ?_⟩
  · unfold SLOT_query_camera
    cases hro : env.readOk with
    | false => simp
    | true =>
        cases tp with
        | none => simp
        | some p =>
            cases hdo : env.templDecodeOk with
            | false => simp
            | true =>
                by_cases h4 : 4 < (ratioFilter env.knnMatchList).length
                · by_cases hH : env.findHomographyOk <;> simp [h4, hH]
                · simp [h4]
  · unfold SLOT_query_camera
    simp [hr]

theorem matching_gated_by_path_not_flag_witness :
    initState.is_template_loaded = false
      ∧ ((SLOT_query_camera emptyMatchEnv (some pathA)).ranFeatureMatching = true
          ↔ (some pathA ≠ none ∧ emptyMatchEnv.readOk = true
              ∧ emptyMatchEnv.templDecodeOk = true))
      ∧ (SLOT_query_camera emptyMatchEnv none).result = .raised .attrErr :=
  ⟨matching_gated_by_path_not_flag.1 initState Reachable.init,
   matching_gated_by_path_not_flag.2.1 (some pathA) emptyMatchEnv,
   matching_gated_by_path_not_flag.2.2 emptyMatchEnv rfl⟩

/-- Line 37: `self._cam_fps = 2`. -/
def _cam_fps : ℚ := 2

/-- Line 53: `self._timer.setInterval(100 / self._cam_fps)` — Python 3
true division, so the value is exactly `100 / 2 = 50` in the timer
primitive's time units (`QTimer` expects milliseconds). -/
def timerSetInterval : ℚ := 100 / _cam_fps

/-- C9 — The constructor sets the repeating timer's interval with
the literal formula `100 / fps`: with `fps = 2` the interval is 50 timer
units, which differs from the standard `1000 / fps` frame-interval
formula (500 for `fps = 2`). -/
theorem timer_interval_literal_formula :
    timerSetInterval = 100 / _cam_fps
      ∧ timerSetInterval = 50
      ∧ timerSetInterval ≠ 1000 / _cam_fps := by
  refine ⟨rfl, by norm_num [timerSetInterval, _cam_fps], ?_⟩
  norm_num [timerSetInterval, _cam_fps]

/-- C8 counterexample — The claim says the diagnostic line is
printed exactly on successful template loads and that cancelling the
browse dialog produces no such line.  From the reachable state
`afterBrowse`, cancelling the dialog still executes line 148 (the
`print` sits outside the `if dlg.exec_():` guard) and prints the line
with the previously stored path. -/
theorem cancelled_browse_prints_line :
    Reachable afterBrowse
      ∧ (SLOT_browse_button none afterBrowse).2
          = .completed [loadedLine pathA] :=
  ⟨Reachable.step (.browse (some pathA)) initState Reachable.init, by decide⟩

/-- C8 amended — The handler prints the single line
`"Loaded template image file: <path>"` on every browse invocation that
completes, not only on successful loads: on a confirmed dialog with the
newly selected path, and on a cancelled dialog with the previously
stored path (lines 146–148 run unconditionally).  Only a cancelled
dialog with no previously stored path produces no line — it raises an
`AttributeError` before reaching the `print`.  No other output is
produced by the handler. -/
theorem browse_print_characterisation (s : AppState) (dlg : Option String) :
    (∀ p, dlg = some p →
        (SLOT_browse_button dlg s).2 = .completed [loadedLine p]
          ∧ (SLOT_browse_button dlg s).1.template_path = some p)
      ∧ (∀ q, dlg = none → s.template_path = some q →
          (SLOT_browse_button dlg s).2 = .completed [loadedLine q]
            ∧ (SLOT_browse_button dlg s).1 = s)
      ∧ (dlg = none → s.template_path = none →
          (SLOT_browse_button dlg s).2 = .raised .attrErr
            ∧ (SLOT_browse_button dlg s).1 = s) := by
  refine ⟨fun p hp => ?_, fun q hd hq => ?_, fun hd hq => ?_⟩
  · subst hp
    exact ⟨rfl, rfl⟩
  · subst hd
    simp [SLOT_browse_button, hq]
  · subst hd
    simp [SLOT_browse_button, hq]

theorem browse_print_characterisation_witness :
    ((SLOT_browse_button (some pathA) initState).2
        = .completed [loadedLine pathA]
      ∧ (SLOT_browse_button (some pathA) initState).1.template_path
          = some pathA)
      ∧ ((SLOT_browse_button none initState).2 = .raised .attrErr
        ∧ (SLOT_browse_button none initState).1 = initState) :=
  ⟨(browse_print_characterisation initState (some pathA)).1 pathA rfl,
   (browse_print_characterisation initState none).2.2 rfl rfl⟩

/-- A pixel of an OpenCV color image: its three channel bytes in storage
order.  Frames arrive from the camera with storage order (B, G, R). -/
abbrev Pixel := Nat × Nat × Nat

/-- An OpenCV color image as a row-major grid of pixels. -/
structure CVImg where
  rows : List (List Pixel)
deriving DecidableEq, Repr

/-- Shape component `cv_img.shape[0]` (line 61). -/
def CVImg.height (img : CVImg) : Nat := img.rows.length

/-- Shape component `cv_img.shape[1]` (line 61). -/
def CVImg.width (img : CVImg) : Nat := (img.rows.headD []).length

/-- A well-formed image: every row has the image's width.  (The third
`shape` component, the channel count, is 3 by construction here.) -/
def CVImg.wellFormed (img : CVImg) : Prop :=
  ∀ r ∈ img.rows, r.length = img.width

instance (img : CVImg) : Decidable img.wellFormed :=
  inferInstanceAs (Decidable (∀ r ∈ img.rows, r.length = img.width))

/-- Line 60: `cv2.cvtColor(cv_img, cv2.COLOR_BGR2RGB)` swaps the first
and third channel of every pixel. -/
def cvtColor_BGR2RGB (img : CVImg) : CVImg :=
  ⟨img.rows.map (fun row => row.map (fun p => (p.2.2, p.2.1, p.1)))⟩

/-- One row of the contiguous buffer `cv_img.data`: each pixel
contributes its three channel bytes in storage order. -/
def rowBytes : List Pixel → List Nat
  | [] => []
  | p :: ps => p.1 :: p.2.1 :: p.2.2 :: rowBytes ps

/-- The row-major buffer `cv_img.data` passed to the `QImage`
constructor at line 63. -/
def imgBytes : List (List Pixel) → List Nat
  | [] => []
  | r :: rs => rowBytes r ++ imgBytes rs

/-- The `QImage` built at lines 63–64 (`Format_RGB888`): the byte
buffer, the dimensions and the row stride `bytesPerLine`.
`QPixmap.fromImage` at line 65 wraps it without changing dimensions or
bytes, so the `QImage` itself stands for the returned bitmap. -/
structure QImage where
  data : List Nat
  width : Nat
  height : Nat
  bytesPerLine : Nat
deriving DecidableEq, Repr

/-- Lines 59–65, `convert_cv_to_pixmap`: convert BGR→RGB, read
`height, width, channel` from the converted image's shape, set
`bytesPerLine = channel * width` and build the bitmap from the
converted image's buffer. -/
def convert_cv_to_pixmap (cv_img : CVImg) : QImage :=
  let rgb := cvtColor_BGR2RGB cv_img
  { data := imgBytes rgb.rows
    width := rgb.width
    height := rgb.height
    bytesPerLine := 3 * rgb.width }

/-- The pixel of `img` at row `i`, column `j`. -/
def pixelAt (img : CVImg) (i j : Nat) : Pixel :=
  (img.rows.getD i []).getD j (0, 0, 0)

theorem cvtColor_height (img : CVImg) :
    (cvtColor_BGR2RGB img).height = img.height := by
  simp [cvtColor_BGR2RGB, CVImg.height]

theorem cvtColor_width (img : CVImg) :
    (cvtColor_BGR2RGB img).width = img.width := by
  cases img with
  | mk rows =>
    cases rows with
    | nil => simp [cvtColor_BGR2RGB, CVImg.width]
    | cons r rs => simp [cvtColor_BGR2RGB, CVImg.width]

theorem rowBytes_length (row : List Pixel) :
    (rowBytes row).length = 3 * row.length := by
  induction row with
  | nil => simp [rowBytes]
  | cons p ps ih =>
    simp only [rowBytes, List.length_cons, ih]
    ring

theorem rowBytes_append_drop_take (row : List Pixel) (rest : List Nat) :
    ∀ j, j < row.length →
      ((rowBytes row ++ rest).drop (3 * j)).take 3
        = [(row.getD j (0, 0, 0)).1, (row.getD j (0, 0, 0)).2.1,
           (row.getD j (0, 0, 0)).2.2] := by
  induction row with
  | nil => intro j hj; simp at hj
  | cons p ps ih =>
    intro j hj
    cases j with
    | zero => simp [rowBytes]
    | succ j' =>
      have h3 : 3 * (j' + 1) = 3 * j' + 1 + 1 + 1 := by ring
      rw [h3]
      simp only [rowBytes, List.cons_append, List.drop_succ_cons,
        List.getD_cons_succ]
      refine ih j' ?_
      simp only [List.length_cons] at hj
      omega

theorem imgBytes_drop_take (W : Nat) :
    ∀ (rows : List (List Pixel)) (i j : Nat),
      (∀ r ∈ rows, r.length = W) → i < rows.length → j < W →
      ((imgBytes rows).drop (i * (3 * W) + 3 * j)).take 3
        = [((rows.getD i []).getD j (0, 0, 0)).1,
           ((rows.getD i []).getD j (0, 0, 0)).2.1,
           ((rows.getD i []).getD j (0, 0, 0)).2.2] := by
  intro rows
  induction rows with
  | nil => intro i j _ hi _; simp at hi
  | cons r rs ih =>
    intro i j hW hi hj
    cases i with
    | zero =>
      simp only [Nat.zero_mul, Nat.zero_add, imgBytes, List.getD_cons_zero]
      refine rowBytes_append_drop_take r (imgBytes rs) j ?_
      rw [hW r (List.mem_cons_self r rs)]
      exact hj
    | succ i' =>
      have hlen : (rowBytes r).length = 3 * W := by
        rw [rowBytes_length, hW r (List.mem_cons_self r rs)]
      have harith : (i' + 1) * (3 * W) + 3 * j
          = (rowBytes r).length + (i' * (3 * W) + 3 * j) := by
        rw [hlen]
        ring
      simp only [imgBytes, List.getD_cons_succ]
      rw [harith, List.drop_append]
      refine ih i' j (fun r' hr' => hW r' (List.mem_cons_of_mem r hr')) ?_ hj
      simp only [List.length_cons] at hi
      omega

theorem cvtColor_rows_getD (img : CVImg) (i : Nat) (hi : i < img.height) :
    (cvtColor_BGR2RGB img).rows.getD i []
      = (img.rows.getD i []).map (fun p => (p.2.2, p.2.1, p.1)) := by
  unfold cvtColor_BGR2RGB CVImg.height at *
  rw [List.getD_eq_getElem _ _ (by simpa using hi),
    List.getD_eq_getElem _ _ hi, List.getElem_map]

theorem map_getD_swap (r : List Pixel) (j : Nat) (hj : j < r.length) :
    (r.map (fun p => (p.2.2, p.2.1, p.1))).getD j (0, 0, 0)
      = ((r.getD j (0, 0, 0)).2.2, (r.getD j (0, 0, 0)).2.1,
         (r.getD j (0, 0, 0)).1) := by
  rw [List.getD_eq_getElem _ _ (by simpa using hj),
    List.getD_eq_getElem _ _ hj, List.getElem_map]

/-- C7 — The display conversion is pure and deterministic: for every
well-formed color image the produced bitmap has the input's width and
height and the row stride `3 * width`; the three bytes stored for the
pixel at row `i`, column `j` are the input pixel's channel bytes with
the channel order reversed from (B, G, R) to (R, G, B); and equal inputs
give byte-for-byte equal outputs. -/
theorem convert_cv_to_pixmap_pure (img : CVImg) (hwf : img.wellFormed) :
    (convert_cv_to_pixmap img).width = img.width
      ∧ (convert_cv_to_pixmap img).height = img.height
      ∧ (convert_cv_to_pixmap img).bytesPerLine = 3 * img.width
      ∧ (∀ i j, i < img.height → j < img.width →
          (((convert_cv_to_pixmap img).data).drop
              (i * (convert_cv_to_pixmap img).bytesPerLine + 3 * j)).take 3
            = [(pixelAt img i j).2.2, (pixelAt img i j).2.1,
               (pixelAt img i j).1])
      ∧ (∀ img2 : CVImg, img = img2 →
          convert_cv_to_pixmap img = convert_cv_to_pixmap img2) := by
  refine ⟨?_, ?_, ?_, ?_, fun img2 h => by rw [h]⟩
  · show (cvtColor_BGR2RGB img).width = img.width
    exact cvtColor_width img
  · show (cvtColor_BGR2RGB img).height = img.height
    exact cvtColor_height img
  · show 3 * (cvtColor_BGR2RGB img).width = 3 * img.width
    rw [cvtColor_width]
  · intro i j hi hj
    show ((imgBytes (cvtColor_BGR2RGB img).rows).drop
        (i * (3 * (cvtColor_BGR2RGB img).width) + 3 * j)).take 3 = _
    rw [cvtColor_width]
    have hrowlen : (img.rows.getD i []).length = img.width := by
      refine hwf _ ?_
      rw [List.getD_eq_getElem _ _ hi]
      exact List.getElem_mem hi
    have hW : ∀ r ∈ (cvtColor_BGR2RGB img).rows, r.length = img.width := by
      intro r hr
      unfold cvtColor_BGR2RGB at hr
      obtain ⟨r0, hr0, rfl⟩ := List.mem_map.mp hr
      simp [hwf r0 hr0]
    have hi' : i < (cvtColor_BGR2RGB img).rows.length := by
      simpa [cvtColor_BGR2RGB] using hi
    rw [imgBytes_drop_take img.width (cvtColor_BGR2RGB img).rows i j hW hi' hj,
      cvtColor_rows_getD img i hi,
      map_getD_swap _ j (by rw [hrowlen]; exact hj)]
    rfl

/-- A concrete 1×2 image for the C7 witness. -/
def sampleImg : CVImg := ⟨[[(1, 2, 3), (4, 5, 6)]]⟩

theorem convert_cv_to_pixmap_pure_witness :
    sampleImg.wellFormed
      ∧ (convert_cv_to_pixmap sampleImg).width = sampleImg.width
      ∧ (((convert_cv_to_pixmap sampleImg).data).drop
            (0 * (convert_cv_to_pixmap sampleImg).bytesPerLine + 3 * 1)).take 3
          = [(pixelAt sampleImg 0 1).2.2, (pixelAt sampleImg 0 1).2.1,
             (pixelAt sampleImg 0 1).1] :=
  ⟨by decide, (convert_cv_to_pixmap_pure sampleImg (by decide)).1,
   (convert_cv_to_pixmap_pure sampleImg (by decide)).2.2.2.1 0 1
      (by decide) (by decide)⟩
